import Mathlib

/-!
Verification development for the sales-ops-hub follow-up notification core.

The definitions below are shallow embeddings of the TypeScript sources:
JavaScript `Date` arithmetic becomes integer epoch-millisecond arithmetic
(with the proleptic-Gregorian civil-date conversions that JS `Date` uses),
Firestore documents become Lean structures, Firestore collections become
association lists, and each request handler becomes a pure function from
its inputs (plus the outcome of its one external call) to the store
operations it performs and the HTTP status it returns.

Division on `Int` below is Euclidean division (`Int.ediv`), which for the
positive divisors used here coincides with the floor division JavaScript
`Date` arithmetic performs.
-/

/-! ## Civil-date arithmetic underlying JS `Date` (UTC) -/

/-- Days from a civil date (proleptic Gregorian, month 1-based): the standard
`days_from_civil` computation that underlies `Date.UTC`. -/
def daysFromCivil (y0 m d : Int) : Int :=
  let y := if m ≤ 2 then y0 - 1 else y0
  let era := y / 400
  let yoe := y - era * 400
  let mp := if m > 2 then m - 3 else m + 9
  let doy := (153 * mp + 2) / 5 + d - 1
  let doe := yoe * 365 + yoe / 4 - yoe / 100 + doy
  era * 146097 + doe - 719468

/-- Civil date (year, month 1-based, day) from a days-since-1970 count: the
standard `civil_from_days` computation that underlies `getUTCFullYear`,
`getUTCMonth` and `getUTCDate`. -/
def civilFromDays (z0 : Int) : Int × Int × Int :=
  let z := z0 + 719468
  let era := z / 146097
  let doe := z - era * 146097
  let yoe := (doe - doe / 1460 + doe / 36524 - doe / 146096) / 365
  let y := yoe + era * 400
  let doy := doe - (365 * yoe + yoe / 4 - yoe / 100)
  let mp := (5 * doy + 2) / 153
  let d := doy - (153 * mp + 2) / 5 + 1
  let m := if mp < 10 then mp + 3 else mp - 9
  (if m ≤ 2 then y + 1 else y, m, d)

/-- The year-of-era formula inside `civilFromDays`, over `Nat`, for one
400-year era (day-of-era 0..146096). -/
def fNat (doe : Nat) : Nat := (doe + doe / 36524 - doe / 1460 - doe / 146096) / 365

/-- First day-of-era of a year-of-era. -/
def startNat (y : Nat) : Nat := 365 * y + y / 4 - y / 100

/-- Last day-of-era of a year-of-era. -/
def endOfNat (y : Nat) : Nat := if y = 399 then 146096 else startNat (y + 1) - 1

/-- Decidable check that the year-of-era formula is correct at both ends of
the interval of days of one year. -/
def checkYearOne (y : Nat) : Bool :=
  decide (fNat (startNat y) = y ∧ fNat (endOfNat y) = y ∧ startNat y ≤ endOfNat y ∧
    endOfNat y ≤ startNat y + 365 ∧ endOfNat y ≤ 146096)

/-- Run `checkYearOne` on every year-of-era from `0` to the argument. -/
def checkYears : Nat → Bool
  | 0 => checkYearOne 0
  | y + 1 => checkYearOne (y + 1) && checkYears y

theorem checkYears_sound : ∀ n, checkYears n = true → ∀ y, y ≤ n → checkYearOne y = true := by
  intro n
  induction n with
  | zero => intro h y hy; interval_cases y; exact h
  | succ n ih =>
    intro h y hy
    rw [checkYears, Bool.and_eq_true] at h
    rcases Nat.lt_or_ge y (n + 1) with h2 | h2
    · exact ih h.2 y (by omega)
    · have : y = n + 1 := by omega
      subst this; exact h.1

set_option maxRecDepth 8000 in
theorem checkYears_all : checkYears 399 = true := by decide

theorem fNat_step (a : Nat) (h : a < 146096) : fNat a ≤ fNat (a + 1) := by
  unfold fNat; omega

theorem fNat_mono : ∀ a b, a ≤ b → b ≤ 146096 → fNat a ≤ fNat b := by
  intro a b hab hb
  induction b with
  | zero =>
    have : a = 0 := by omega
    subst this; exact Nat.le_refl _
  | succ n ih =>
    rcases Nat.lt_or_ge a (n + 1) with h2 | h2
    · exact Nat.le_trans (ih (by omega) (by omega)) (fNat_step n (by omega))
    · have : a = n + 1 := by omega
      subst this; exact Nat.le_refl _

theorem fNat_top : fNat 146096 = 399 := by decide

theorem yearOfEra_correct (doe : Nat) (h : doe ≤ 146096) :
    fNat doe ≤ 399 ∧ startNat (fNat doe) ≤ doe ∧ doe ≤ startNat (fNat doe) + 365 := by
  set y := fNat doe with hy
  have hy399 : y ≤ 399 := by
    rw [hy, ← fNat_top]; exact fNat_mono doe 146096 h (Nat.le_refl _)
  have hchk : ∀ z, z ≤ 399 → checkYearOne z = true :=
    checkYears_sound 399 checkYears_all
  have hcy := of_decide_eq_true (hchk y hy399)
  refine ⟨hy399, ?_, ?_⟩
  · by_cases hy0 : y = 0
    · rw [hy0]; unfold startNat; omega
    · by_contra hlt
      push_neg at hlt
      have hy1 : 1 ≤ y := by omega
      have hcy' := of_decide_eq_true (hchk (y - 1) (by omega))
      have hy11 : y - 1 + 1 = y := by omega
      have hend : endOfNat (y - 1) = startNat y - 1 := by
        unfold endOfNat
        have hno : ¬ (y - 1 = 399) := by omega
        rw [if_neg hno, hy11]
      have hstpos : 1 ≤ startNat y := by unfold startNat; omega
      have hle : doe ≤ endOfNat (y - 1) := by omega
      have : fNat doe ≤ fNat (endOfNat (y - 1)) :=
        fNat_mono doe (endOfNat (y - 1)) hle hcy'.2.2.2.2
      rw [hcy'.2.1] at this
      omega
  · by_cases hy399' : y = 399
    · have h1 := hcy.2.2.2.1
      have h2 : endOfNat y = 146096 := by unfold endOfNat; rw [if_pos hy399']
      omega
    · by_contra hgt
      push_neg at hgt
      have hnext := of_decide_eq_true (hchk (y + 1) (by omega))
      have hend : endOfNat y = startNat (y + 1) - 1 := by
        unfold endOfNat; rw [if_neg hy399']
      have hstpos : 1 ≤ startNat (y + 1) := by unfold startNat; omega
      have hge : startNat (y + 1) ≤ doe := by
        have h1 := hcy.2.2.2.1
        omega
      have : fNat (startNat (y + 1)) ≤ fNat doe :=
        fNat_mono (startNat (y + 1)) doe hge h
      rw [hnext.1] at this
      omega

lemma daysFromCivil_eval (era yoe mp doyv : Int)
    (h0 : 0 ≤ yoe) (h1 : yoe ≤ 399) (h2 : 0 ≤ mp) (h3 : mp ≤ 11) :
    daysFromCivil
      (if (if mp < 10 then mp + 3 else mp - 9) ≤ 2 then yoe + era * 400 + 1 else yoe + era * 400)
      (if mp < 10 then mp + 3 else mp - 9)
      (doyv - (153 * mp + 2) / 5 + 1)
    = era * 146097 + (yoe * 365 + yoe / 4 - yoe / 100 + doyv) - 719468 := by
  have h400 : (yoe + era * 400) / 400 = era := by omega
  rcases lt_or_ge mp 10 with hc | hc
  · rw [if_pos hc, if_neg (show ¬ (mp + 3 ≤ 2) by omega)]
    unfold daysFromCivil
    dsimp only
    rw [if_neg (show ¬ (mp + 3 ≤ 2) by omega), if_pos (show mp + 3 > 2 by omega)]
    rw [h400]
    rw [show yoe + era * 400 - era * 400 = yoe by ring]
    rw [show (153 * (mp + 3 - 3) + 2 : Int) = 153 * mp + 2 by ring]
    ring
  · rw [if_neg (show ¬ (mp < 10) by omega), if_pos (show mp - 9 ≤ 2 by omega)]
    unfold daysFromCivil
    dsimp only
    rw [if_pos (show mp - 9 ≤ 2 by omega), if_neg (show ¬ (mp - 9 > 2) by omega)]
    rw [show yoe + era * 400 + 1 - 1 = yoe + era * 400 by ring]
    rw [h400]
    rw [show yoe + era * 400 - era * 400 = yoe by ring]
    rw [show (153 * (mp - 9 + 9) + 2 : Int) = 153 * mp + 2 by ring]
    ring

lemma cast_combo (n : Nat) :
    ((n : Int) - ↑(n / 1460) + ↑(n / 36524) - ↑(n / 146096) : Int)
      = ↑(n + n / 36524 - n / 1460 - n / 146096) := by
  omega

lemma cast_start (k : Nat) :
    (365 * (k : Int) + ↑(k / 4) - ↑(k / 100) : Int) = ↑(365 * k + k / 4 - k / 100) := by
  omega

theorem roundtrip_key (z era doe yoe doy mp : Int)
    (hera : era = (z + 719468) / 146097)
    (hdoe : doe = z + 719468 - era * 146097)
    (hyoe : yoe = (doe - doe / 1460 + doe / 36524 - doe / 146096) / 365)
    (hdoy : doy = doe - (365 * yoe + yoe / 4 - yoe / 100))
    (hmp : mp = (5 * doy + 2) / 153) :
    daysFromCivil
      (if (if mp < 10 then mp + 3 else mp - 9) ≤ 2 then yoe + era * 400 + 1 else yoe + era * 400)
      (if mp < 10 then mp + 3 else mp - 9)
      (doy - (153 * mp + 2) / 5 + 1) = z := by
  have hdoeB : 0 ≤ doe ∧ doe ≤ 146096 := by
    clear hyoe hdoy hmp
    omega
  obtain ⟨n, hn⟩ : ∃ n : Nat, (n : Int) = doe := ⟨doe.toNat, Int.toNat_of_nonneg hdoeB.1⟩
  obtain ⟨hA, hB, hC⟩ := yearOfEra_correct n (by omega)
  have h1 : doe / 1460 = ((n / 1460 : Nat) : Int) := by
    rw [← hn]; exact (Int.natCast_ediv n 1460).symm
  have h2 : doe / 36524 = ((n / 36524 : Nat) : Int) := by
    rw [← hn]; exact (Int.natCast_ediv n 36524).symm
  have h3 : doe / 146096 = ((n / 146096 : Nat) : Int) := by
    rw [← hn]; exact (Int.natCast_ediv n 146096).symm
  have hyoeN : yoe = ((fNat n : Nat) : Int) := by
    rw [hyoe, h1, h2, h3, ← hn, cast_combo]
    unfold fNat
    exact (Int.natCast_ediv _ 365).symm
  have hq4N : yoe / 4 = ((fNat n / 4 : Nat) : Int) := by
    rw [hyoeN]; exact (Int.natCast_ediv _ 4).symm
  have hq5N : yoe / 100 = ((fNat n / 100 : Nat) : Int) := by
    rw [hyoeN]; exact (Int.natCast_ediv _ 100).symm
  have hstart : (365 * yoe + yoe / 4 - yoe / 100 : Int) = ((startNat (fNat n) : Nat) : Int) := by
    rw [hq4N, hq5N, hyoeN, cast_start]
    unfold startNat
    rfl
  have hdoyN : doy = (n : Int) - ↑(startNat (fNat n)) := by
    rw [hdoy, hstart, hn]
  have hyoeB : 0 ≤ yoe ∧ yoe ≤ 399 := by
    clear hyoe hdoy hmp hdoe hera h1 h2 h3 hq4N hq5N hstart hdoyN hB hC
    omega
  have hdoyB : 0 ≤ doy ∧ doy ≤ 365 := by
    clear hyoe hdoy hmp hdoe hera h1 h2 h3 hq4N hq5N hstart hyoeN hA
    omega
  have hmpB : 0 ≤ mp ∧ mp ≤ 11 := by
    clear hyoe hdoy hdoe hera h1 h2 h3 hq4N hq5N hstart hyoeN hdoyN hA hB hC
    omega
  rw [daysFromCivil_eval era yoe mp doy hyoeB.1 hyoeB.2 hmpB.1 hmpB.2]
  clear hyoe hdoy hmp hyoeB hdoyB hmpB h1 h2 h3 hA hB hC
  omega

set_option maxHeartbeats 1000000 in
/-- Round trip: converting a day count to a civil date and back is the
identity. This is the arithmetic fact connecting `Date.UTC` to the
`getUTC*` accessors of JS `Date`. -/
theorem daysFromCivil_civilFromDays (z : Int) :
    daysFromCivil (civilFromDays z).1 (civilFromDays z).2.1 (civilFromDays z).2.2 = z := by
  have h := roundtrip_key z _ _ _ _ _ rfl rfl rfl rfl rfl
  exact h

/-! ## JS `Date` accessors on epoch milliseconds -/

/-- Days-since-epoch of an epoch-milliseconds instant (floor semantics). -/
def epochDays (ms : Int) : Int := ms / 86400000

/-- JS `getUTCFullYear`. -/
def getUTCFullYear (ms : Int) : Int := (civilFromDays (epochDays ms)).1

/-- JS `getUTCMonth` (0-based, as in JavaScript). -/
def getUTCMonth (ms : Int) : Int := (civilFromDays (epochDays ms)).2.1 - 1

/-- JS `getUTCDate` (day of month, 1-based). -/
def getUTCDate (ms : Int) : Int := (civilFromDays (epochDays ms)).2.2

/-- JS `getUTCHours`. -/
def getUTCHours (ms : Int) : Int := (ms % 86400000) / 3600000

/-- JS `getUTCDay` (0 = Sunday .. 6 = Saturday; 1970-01-01 was a Thursday). -/
def getUTCDay (ms : Int) : Int := (epochDays ms + 4) % 7

/-- JS `Date.UTC(y, m, d, h, min)` with the JavaScript 0-based month `m`. -/
def dateUTC (y m0 d h min : Int) : Int :=
  daysFromCivil y (m0 + 1) d * 86400000 + h * 3600000 + min * 60000

example : daysFromCivil 1970 1 1 = 0 := by decide
example : daysFromCivil 2025 1 9 = 20097 := by decide
example : civilFromDays 20097 = (2025, 1, 9) := by decide
example : getUTCDay 1736380800000 = 4 := by decide
example : getUTCHours 1736350200000 = 15 := by decide

/-- `Date.UTC` at midnight of the civil date of a day count recovers the
day count (in milliseconds). -/
theorem dateUTC_midnight (z : Int) :
    dateUTC (civilFromDays z).1 ((civilFromDays z).2.1 - 1) (civilFromDays z).2.2 0 0
      = z * 86400000 := by
  unfold dateUTC
  rw [show (civilFromDays z).2.1 - 1 + 1 = (civilFromDays z).2.1 by ring]
  rw [daysFromCivil_civilFromDays]
  ring

/-! ## `src/utils/time.ts`: business-day schedule arithmetic (JST) -/

/-- The fixed JST offset in milliseconds (`JST_OFFSET_MS = 9 * 60 * 60 * 1000`). -/
def jstOffsetMs : Int := 32400000

/-- Termination measure helper for the `addDaysJST` while-loop: how many
consecutive weekend days lie directly ahead of `cur`. -/
def weekendPad (cur : Int) : Nat :=
  if getUTCDay (cur + 86400000) = 6 then 2
  else if getUTCDay (cur + 86400000) = 0 then 1 else 0

/-- The `while (d < days)` loop body of `addDaysJST` (business-day branch):
step one calendar day at a time, counting a step only when the day landed on
is neither Sunday (0) nor Saturday (6). The `Nat` argument is the number of
business days still to count. -/
def addDaysJSTloop : Nat → Int → Int
  | 0, cur => cur
  | d + 1, cur =>
    let next := cur + 86400000
    if h : getUTCDay next ≠ 0 ∧ getUTCDay next ≠ 6 then addDaysJSTloop d next
    else addDaysJSTloop (d + 1) next
termination_by d cur => 3 * d + weekendPad cur
decreasing_by
  · have : weekendPad (cur + 86400000) ≤ 2 := by
      unfold weekendPad; split_ifs <;> omega
    omega
  · unfold weekendPad getUTCDay epochDays at *
    split_ifs at * <;> omega

/-- `addDaysJST` from `src/utils/time.ts`: add N calendar or business days
(skipping Saturday and Sunday) to a date given at 00:00Z. -/
def addDaysJST (baseUTCDateAt00Z : Int) (days : Nat) (businessDays : Bool) : Int :=
  if businessDays = false then baseUTCDateAt00Z + (days : Int) * 86400000
  else addDaysJSTloop days baseUTCDateAt00Z

/-- `scheduleAtJST` from `src/utils/time.ts`: shift the event instant to the
JST clock, anchor at that JST calendar date, advance the requested days
(business days when the flag is set), and return the requested JST
wall-clock time of the landed date as a UTC instant. -/
def scheduleAtJST (sentAt : Int) (days : Nat) (hour minute : Int) (businessDays : Bool) : Int :=
  let jst := sentAt + jstOffsetMs
  let y := getUTCFullYear jst
  let m := getUTCMonth jst
  let d := getUTCDate jst
  let baseJSTCalendarAt00Z := dateUTC y m d 0 0
  let target := addDaysJST baseJSTCalendarAt00Z days businessDays
  let ty := getUTCFullYear target
  let tm := getUTCMonth target
  let td := getUTCDate target
  dateUTC ty tm td hour minute - jstOffsetMs

/-! ## Spec-side business-day arithmetic (the wording of C7) -/

/-- Day of week of a days-since-1970 day number (0 = Sunday .. 6 = Saturday). -/
def dayOfWeekNum (d : Int) : Int := (d + 4) % 7

/-- Termination measure helper for `specAddBusinessDays`. -/
def specWeekendPad (d : Int) : Nat :=
  if dayOfWeekNum (d + 1) = 6 then 2
  else if dayOfWeekNum (d + 1) = 0 then 1 else 0

/-- Business-day counting as the specification words it: starting from a
calendar day number, step forward one calendar day at a time and decrement
the remaining count only when the day stepped onto is a Monday–Friday. -/
def specAddBusinessDays : Nat → Int → Int
  | 0, d => d
  | n + 1, d =>
    if h : dayOfWeekNum (d + 1) ≠ 0 ∧ dayOfWeekNum (d + 1) ≠ 6 then specAddBusinessDays n (d + 1)
    else specAddBusinessDays (n + 1) (d + 1)
termination_by n d => 3 * n + specWeekendPad d
decreasing_by
  · unfold specWeekendPad dayOfWeekNum
    split_ifs <;> omega
  · unfold specWeekendPad dayOfWeekNum at *
    split_ifs at * <;> omega

/-- The instant the specification describes for a business-day follow-up:
JST calendar date of the origin advanced by `n` business days, at 15:00 JST,
expressed in UTC. -/
def specBusinessDayTarget (sentAt : Int) (n : Nat) : Int :=
  specAddBusinessDays n ((sentAt + jstOffsetMs) / 86400000) * 86400000
    + 15 * 3600000 - jstOffsetMs

lemma dateUTC_of_day (z h min : Int) :
    dateUTC (getUTCFullYear (z * 86400000)) (getUTCMonth (z * 86400000))
      (getUTCDate (z * 86400000)) h min = z * 86400000 + h * 3600000 + min * 60000 := by
  unfold getUTCFullYear getUTCMonth getUTCDate epochDays dateUTC
  have hz : (z * 86400000) / 86400000 = z := by omega
  rw [hz, show (civilFromDays z).2.1 - 1 + 1 = (civilFromDays z).2.1 by ring,
    daysFromCivil_civilFromDays]

lemma addDaysJSTloop_toSpec :
    ∀ (N k : Nat) (cur : Int), 3 * k + weekendPad (cur * 86400000) ≤ N →
      addDaysJSTloop k (cur * 86400000) = specAddBusinessDays k cur * 86400000 := by
  intro N
  induction N with
  | zero =>
    intro k cur h
    have hk : k = 0 := by omega
    subst hk
    simp [addDaysJSTloop, specAddBusinessDays]
  | succ N ih =>
    intro k cur h
    match k with
    | 0 => simp [addDaysJSTloop, specAddBusinessDays]
    | k + 1 =>
      rw [addDaysJSTloop, specAddBusinessDays]
      have hdow : getUTCDay (cur * 86400000 + 86400000) = dayOfWeekNum (cur + 1) := by
        unfold getUTCDay epochDays dayOfWeekNum
        omega
      have hstep : cur * 86400000 + 86400000 = (cur + 1) * 86400000 := by ring
      by_cases hc : dayOfWeekNum (cur + 1) ≠ 0 ∧ dayOfWeekNum (cur + 1) ≠ 6
      · rw [dif_pos (by rw [hdow]; exact hc), dif_pos hc]
        have hrec : addDaysJSTloop k ((cur + 1) * 86400000)
            = specAddBusinessDays k (cur + 1) * 86400000 := by
          refine ih k (cur + 1) ?_
          have : weekendPad ((cur + 1) * 86400000) ≤ 2 := by
            unfold weekendPad; split_ifs <;> omega
          omega
        rw [← hstep] at hrec
        exact hrec
      · rw [dif_neg (by rw [hdow]; exact hc), dif_neg hc]
        have hpad : weekendPad ((cur + 1) * 86400000) < weekendPad (cur * 86400000) := by
          unfold weekendPad getUTCDay epochDays
          unfold dayOfWeekNum at hc
          split_ifs <;> omega
        have hrec : addDaysJSTloop (k + 1) ((cur + 1) * 86400000)
            = specAddBusinessDays (k + 1) (cur + 1) * 86400000 := by
          refine ih (k + 1) (cur + 1) ?_
          omega
        rw [← hstep] at hrec
        exact hrec

/-- The source `scheduleAtJST` with business days at 15:00 JST equals the
business-day target of the specification, for every origin instant. -/
theorem scheduleAtJST_eq_spec (sentAt : Int) (n : Nat) :
    scheduleAtJST sentAt n 15 0 true = specBusinessDayTarget sentAt n := by
  unfold scheduleAtJST specBusinessDayTarget
  dsimp only
  have hbase : dateUTC (getUTCFullYear (sentAt + jstOffsetMs)) (getUTCMonth (sentAt + jstOffsetMs))
      (getUTCDate (sentAt + jstOffsetMs)) 0 0
      = ((sentAt + jstOffsetMs) / 86400000) * 86400000 := by
    unfold getUTCFullYear getUTCMonth getUTCDate epochDays dateUTC
    have := dateUTC_midnight ((sentAt + jstOffsetMs) / 86400000)
    unfold dateUTC at this
    rw [show (civilFromDays ((sentAt + jstOffsetMs) / 86400000)).2.1 - 1 + 1
        = (civilFromDays ((sentAt + jstOffsetMs) / 86400000)).2.1 by ring,
      daysFromCivil_civilFromDays]
    ring
  rw [hbase]
  rw [show addDaysJST (((sentAt + jstOffsetMs) / 86400000) * 86400000) n true
      = addDaysJSTloop n (((sentAt + jstOffsetMs) / 86400000) * 86400000) from by
    unfold addDaysJST; simp]
  rw [addDaysJSTloop_toSpec (3 * n + weekendPad ((((sentAt + jstOffsetMs) / 86400000)) * 86400000))
    n ((sentAt + jstOffsetMs) / 86400000) (Nat.le_refl _)]
  rw [dateUTC_of_day]
  ring

/-! ## SHA-256, the hash behind `hashId` in `src/utils/hash.ts` -/

/-- 2^32, the word modulus of SHA-256. -/
def w32 : Nat := 4294967296

/-- 32-bit right rotation on a `Nat` below 2^32. -/
def rotr32 (n x : Nat) : Nat := ((x >>> n) ||| (x <<< (32 - n))) % w32

def bsig0 (x : Nat) : Nat := rotr32 2 x ^^^ rotr32 13 x ^^^ rotr32 22 x

def bsig1 (x : Nat) : Nat := rotr32 6 x ^^^ rotr32 11 x ^^^ rotr32 25 x

def ssig0 (x : Nat) : Nat := rotr32 7 x ^^^ rotr32 18 x ^^^ (x >>> 3)

def ssig1 (x : Nat) : Nat := rotr32 17 x ^^^ rotr32 19 x ^^^ (x >>> 10)

def chF (x y z : Nat) : Nat := (x &&& y) ^^^ ((x ^^^ 4294967295) &&& z)

def majF (x y z : Nat) : Nat := (x &&& y) ^^^ (x &&& z) ^^^ (y &&& z)

/-- The 64 SHA-256 round constants (FIPS 180-4), written in decimal. -/
def sha256K : List Nat :=
  [1116352408, 1899447441, 3049323471, 3921009573, 961987163, 1508970993,
   2453635748, 2870763221, 3624381080, 310598401, 607225278, 1426881987,
   1925078388, 2162078206, 2614888103, 3248222580, 3835390401, 4022224774,
   264347078, 604807628, 770255983, 1249150122, 1555081692, 1996064986,
   2554220882, 2821834349, 2952996808, 3210313671, 3336571891, 3584528711,
   113926993, 338241895, 666307205, 773529912, 1294757372, 1396182291,
   1695183700, 1986661051, 2177026350, 2456956037, 2730485921, 2820302411,
   3259730800, 3345764771, 3516065817, 3600352804, 4094571909, 275423344,
   430227734, 506948616, 659060556, 883997877, 958139571, 1322822218,
   1537002063, 1747873779, 1955562222, 2024104815, 2227730452, 2361852424,
   2428436474, 2756734187, 3204031479, 3329325298]

/-- The SHA-256 initial hash value, written in decimal. -/
def sha256H0 : List Nat :=
  [1779033703, 3144134277, 1013904242, 2773480762, 1359893119, 2600822924,
   528734635, 1541459225]

/-- The 8-word working state of the SHA-256 compression function. -/
structure Sha8 where
  a : Nat
  b : Nat
  c : Nat
  d : Nat
  e : Nat
  f : Nat
  g : Nat
  h : Nat

/-- One round of the SHA-256 compression function. -/
def sha256Round (s : Sha8) (kw : Nat × Nat) : Sha8 :=
  let t1 := (s.h + bsig1 s.e + chF s.e s.f s.g + kw.1 + kw.2) % w32
  let t2 := (bsig0 s.a + majF s.a s.b s.c) % w32
  ⟨(t1 + t2) % w32, s.a, s.b, s.c, (s.d + t1) % w32, s.e, s.f, s.g⟩

/-- Extend the 16 words of a block to the 64-entry message schedule. -/
def scheduleW (block : List Nat) : List Nat :=
  (List.range 48).foldl (fun w _ =>
    let m := w.length
    w ++ [(ssig1 (w.getD (m - 2) 0) + w.getD (m - 7) 0
            + ssig0 (w.getD (m - 15) 0) + w.getD (m - 16) 0) % w32]) block

/-- Process one 64-byte block (given as 16 words) into the running hash. -/
def processBlock (hs : List Nat) (block : List Nat) : List Nat :=
  let w := scheduleW block
  let s0 : Sha8 := ⟨hs.getD 0 0, hs.getD 1 0, hs.getD 2 0, hs.getD 3 0,
                    hs.getD 4 0, hs.getD 5 0, hs.getD 6 0, hs.getD 7 0⟩
  let s := (sha256K.zip w).foldl sha256Round s0
  [(hs.getD 0 0 + s.a) % w32, (hs.getD 1 0 + s.b) % w32, (hs.getD 2 0 + s.c) % w32,
   (hs.getD 3 0 + s.d) % w32, (hs.getD 4 0 + s.e) % w32, (hs.getD 5 0 + s.f) % w32,
   (hs.getD 6 0 + s.g) % w32, (hs.getD 7 0 + s.h) % w32]

/-- SHA-256 padding: append `0x80`, zeros to 56 mod 64, and the 8-byte
big-endian bit length. -/
def sha256Pad (msg : List Nat) : List Nat :=
  let L := msg.length
  let zeros := (119 - L % 64) % 64
  msg ++ 0x80 :: (List.replicate zeros 0 ++
    (List.range 8).map (fun i => ((8 * L) >>> ((7 - i) * 8)) % 256))

/-- Group four big-endian bytes into one 32-bit word, over a whole list. -/
def bytesToWords : List Nat → List Nat
  | b0 :: b1 :: b2 :: b3 :: rest => (((b0 * 256 + b1) * 256 + b2) * 256 + b3) :: bytesToWords rest
  | _ => []

/-- Fold the compression function over the 16-word blocks of a word list.
The fuel is one more than the number of blocks, so it never runs out. -/
def sha256Blocks : Nat → List Nat → List Nat → List Nat
  | 0, hs, _ => hs
  | fuel + 1, hs, l => if l.isEmpty then hs else
      sha256Blocks fuel (processBlock hs (l.take 16)) (l.drop 16)

/-- SHA-256 of a byte list, as the list of 8 words of the digest. -/
def sha256Words (msg : List Nat) : List Nat :=
  let ws := bytesToWords (sha256Pad msg)
  sha256Blocks (ws.length / 16 + 1) sha256H0 ws

/-- Lower-case hex digit. -/
def hexDigitChar (n : Nat) : Char := if n < 10 then Char.ofNat (48 + n) else Char.ofNat (87 + n)

/-- Eight hex digits of one 32-bit word, most significant first. -/
def word32Hex (x : Nat) : List Char := (List.range 8).map (fun i => hexDigitChar ((x >>> ((7 - i) * 4)) % 16))

/-- UTF-8 encoding of one character, as `Nat` bytes. -/
def utf8Bytes (c : Char) : List Nat :=
  let n := c.toNat
  if n < 0x80 then [n]
  else if n < 0x800 then [0xC0 ||| (n >>> 6), 0x80 ||| (n &&& 0x3F)]
  else if n < 0x10000 then
    [0xE0 ||| (n >>> 12), 0x80 ||| ((n >>> 6) &&& 0x3F), 0x80 ||| (n &&& 0x3F)]
  else
    [0xF0 ||| (n >>> 18), 0x80 ||| ((n >>> 12) &&& 0x3F),
     0x80 ||| ((n >>> 6) &&& 0x3F), 0x80 ||| (n &&& 0x3F)]

/-- UTF-8 bytes of a string, as `Nat`s. -/
def strBytes (s : String) : List Nat := (s.data.map utf8Bytes).flatten

/-- Hex digest of the SHA-256 of a string (64 hex characters). -/
def sha256Hex (s : String) : String := String.mk ((sha256Words (strBytes s)).map word32Hex).flatten

/-- `hashId` from `src/utils/hash.ts`: first 24 hex characters of the SHA-256
digest of the input, a deterministic short id for idempotency keys. -/
def hashId (input : String) : String := String.mk ((sha256Hex input).toList.take 24)

example : hashId "abc" = "ba7816bf8f01cfea414140de" := by decide

/-! ## Domain enums (`src/types`) -/

/-- `NotificationType` from `src/types/notification.ts` (8 tokens). -/
inductive NotificationType
  | follow_up_bot_join_call_check
  | follow_up_proposal_1st
  | follow_up_proposal_2nd
  | follow_up_invoice_1st
  | follow_up_invoice_2nd
  | follow_up_calendly
  | follow_up_agreement_1st
  | follow_up_agreement_2nd
deriving DecidableEq, Repr

/-- The string value of a `NotificationType` token (as stored and hashed). -/
def notifTypeStr : NotificationType → String
  | .follow_up_bot_join_call_check => "follow_up_bot_join_call_check"
  | .follow_up_proposal_1st => "follow_up_proposal_1st"
  | .follow_up_proposal_2nd => "follow_up_proposal_2nd"
  | .follow_up_invoice_1st => "follow_up_invoice_1st"
  | .follow_up_invoice_2nd => "follow_up_invoice_2nd"
  | .follow_up_calendly => "follow_up_calendly"
  | .follow_up_agreement_1st => "follow_up_agreement_1st"
  | .follow_up_agreement_2nd => "follow_up_agreement_2nd"

/-- `MessageType` from `src/types/message.ts`. -/
inductive MessageType
  | text
  | photo
  | video
  | document
  | sticker
  | member_join
  | member_leave
  | other
deriving DecidableEq, Repr

/-- `ChatPhase` from `src/types/chat.ts` (5 ordered lifecycle tokens). -/
inductive ChatPhase
  | BotAdded
  | CalendlyLinkShared
  | ProposalSent
  | AgreementSent
  | InvoiceSent
deriving DecidableEq, Repr

/-- `PHASE_PRIORITY` from `src/lib/telegram/updateChatPhase.ts`
(higher = later in the lifecycle). -/
def PHASE_PRIORITY : ChatPhase → Nat
  | .BotAdded => 1
  | .CalendlyLinkShared => 2
  | .ProposalSent => 3
  | .AgreementSent => 4
  | .InvoiceSent => 5

/-- `PHASE_BY_NOTIF` from `src/types/chat.ts`: only base ("1st") notification
types map to a phase. -/
def PHASE_BY_NOTIF : NotificationType → Option ChatPhase
  | .follow_up_bot_join_call_check => some .BotAdded
  | .follow_up_calendly => some .CalendlyLinkShared
  | .follow_up_proposal_1st => some .ProposalSent
  | .follow_up_agreement_1st => some .AgreementSent
  | .follow_up_invoice_1st => some .InvoiceSent
  | _ => none

/-! ## String helpers: JS `toLowerCase` and `includes` -/

/-- JS `String.prototype.toLowerCase` (ASCII case folding). -/
def jsToLower (s : String) : String := String.mk (s.data.map Char.toLower)

/-- Whether `kw` is a leading segment of `l`. -/
def listPrefixCheck : List Char → List Char → Bool
  | [], _ => true
  | _ :: _, [] => false
  | a :: as, b :: bs => a = b && listPrefixCheck as bs

/-- Whether `kw` occurs as a contiguous segment of `hay`
(JS `String.prototype.includes`). -/
def hasSubList : List Char → List Char → Bool
  | hay, kw =>
    match hay with
    | [] => listPrefixCheck kw []
    | _ :: t => listPrefixCheck kw hay || hasSubList t kw

/-- JS `combined.includes(kw)`. -/
def strIncludes (s kw : String) : Bool := hasSubList s.data kw.data

example : strIncludes "a calendly.com link" "calendly.com" = true := by decide
example : strIncludes "calendly.co\nm" "calendly.com" = false := by decide

/-! ## Inbound message model and the trigger classifier (`followup.ts`) -/

/-- A member entry of a Telegram `new_chat_members` array. -/
structure TgChatMember where
  username : Option String
deriving DecidableEq, Repr

/-- The `document` part of a Telegram message. -/
structure TgDocumentInfo where
  fileId : Option String
  fileName : Option String
  mimeType : Option String
  fileSize : Option Int
deriving DecidableEq, Repr

/-- The fields of an inbound Telegram message the follow-up pipeline reads. -/
structure TgMessage where
  fromId : Option String
  fromUsername : Option String
  fromIsBot : Bool
  chatId : String
  chatTitle : Option String
  messageId : String
  caption : Option String
  text : Option String
  document : Option TgDocumentInfo
  newChatMembers : Option (List TgChatMember)
deriving DecidableEq, Repr

/-- `INTERNAL_USER_IDS` from the internal-member detector (hard-coded team
member Telegram ids). -/
def INTERNAL_USER_IDS : List String :=
  ["5106417385", "5302025575", "6217645240", "7888860699", "6288713798",
   "1878347283", "951221958", "5559185358", "6292079093"]

/-- JS `String.prototype.trim`: drop leading and trailing whitespace. -/
def jsTrim (s : String) : String :=
  String.mk (((s.data.dropWhile Char.isWhitespace).reverse.dropWhile Char.isWhitespace).reverse)

/-- `isFromInternal` (implementation shown in `src/lib/sheets/README.md`):
null-ish sender is not internal; otherwise coerce to string, trim, and
test membership in the fixed id set. -/
def isFromInternal : Option String → Bool
  | none => false
  | some senderId => INTERNAL_USER_IDS.contains (jsTrim senderId)

/-- The own account name of the bot checked in the member-join rule. -/
def BOT_USERNAME : String := "sales_ops_assistant_bot"

/-- `getFollowupType` from `src/lib/telegram/followup.ts`: decide a single
follow-up type for a message; `none` when no rule matches or the sender is
not internal. -/
def getFollowupType (msg : TgMessage) (type : MessageType) : Option NotificationType :=
  if isFromInternal msg.fromId = false then none
  else
    let caption := msg.caption.getD ""
    let text := msg.text.getD ""
    let fileName := (msg.document.bind TgDocumentInfo.fileName).getD ""
    let combined := jsToLower (caption ++ "\n" ++ text ++ "\n" ++ fileName)
    let isBotJoinCallCheck :=
      decide (type = MessageType.member_join) &&
        (match msg.newChatMembers with
         | some members => members.any (fun u => decide (u.username = some BOT_USERNAME))
         | none => false)
    let isProposalDoc :=
      (["docs.google.com", "drive.google.com"].any (strIncludes combined)) &&
        strIncludes combined "proposal"
    let isInvoiceDoc := decide (type = MessageType.document) && strIncludes combined "invoice"
    let isCalendly := strIncludes combined "calendly.com"
    let isAgreement :=
      (["docs.google.com", "drive.google.com"].any (strIncludes combined)) &&
        strIncludes combined "agreement"
    if isBotJoinCallCheck then some .follow_up_bot_join_call_check
    else if isProposalDoc then some .follow_up_proposal_1st
    else if isInvoiceDoc then some .follow_up_invoice_1st
    else if isCalendly then some .follow_up_calendly
    else if isAgreement then some .follow_up_agreement_1st
    else none

/-! ## `getFollowupSchedules` from `src/lib/telegram/followup.ts` -/

/-- Expand a detected base type into one or more (type, scheduledAt) pairs.
Business-day types use `scheduleAtJST` (15:00 JST); the bot-join check uses
origin+3h with the early-morning snap branch. -/
def getFollowupSchedules (notifType : NotificationType) (sentAt : Int) :
    List (NotificationType × Int) :=
  let mk := fun (t : NotificationType) (days : Nat) => (t, scheduleAtJST sentAt days 15 0 true)
  match notifType with
  | .follow_up_bot_join_call_check =>
    let plus3 := sentAt + 3 * 3600000
    let jst := plus3 + 9 * 3600000
    let y := getUTCFullYear jst
    let m := getUTCMonth jst
    let d := getUTCDate jst
    let h := getUTCHours jst
    let scheduledJst := if 3 ≤ h ∧ h ≤ 11 then dateUTC y m d 2 0 else jst
    let scheduledUtc := scheduledJst - 9 * 3600000
    [(.follow_up_bot_join_call_check, scheduledUtc)]
  | .follow_up_proposal_1st => [mk .follow_up_proposal_1st 3, mk .follow_up_proposal_2nd 6]
  | .follow_up_proposal_2nd => [mk .follow_up_proposal_2nd 6]
  | .follow_up_invoice_1st => [mk .follow_up_invoice_1st 2, mk .follow_up_invoice_2nd 4]
  | .follow_up_invoice_2nd => [mk .follow_up_invoice_2nd 4]
  | .follow_up_calendly => [mk .follow_up_calendly 1]
  | .follow_up_agreement_1st => [mk .follow_up_agreement_1st 2, mk .follow_up_agreement_2nd 4]
  | .follow_up_agreement_2nd => [mk .follow_up_agreement_2nd 4]

/-! ## Phase state machine (`src/lib/telegram/updateChatPhase.ts`) -/

/-- The `phase` value written to `tg_chats/{chatId}`. -/
structure NextPhase where
  value : ChatPhase
  ts : Int
  messageId : String
deriving DecidableEq, Repr

/-- `upsertChatPhaseIfAdvanced`: the chat document is modelled as
`Option (Option NextPhase)` — `none` when the document does not exist,
`some none` when it exists without a phase field. Returns the applied flag
and the resulting document. -/
def upsertChatPhaseIfAdvanced (doc : Option (Option NextPhase)) (next : NextPhase) :
    Bool × Option (Option NextPhase) :=
  match doc with
  | none => (true, some (some next))
  | some curr =>
    if curr.map NextPhase.value = some next.value ∧
        curr.map NextPhase.messageId = some next.messageId then
      (false, some curr)
    else
      let currPri := match curr with
        | some c => PHASE_PRIORITY c.value
        | none => 0
      let nextPri := PHASE_PRIORITY next.value
      if nextPri > currPri ∨ curr.isNone then (true, some (some next))
      else (false, some curr)

/-! ## Job store and `createJobAndTask` (`src/lib/telegram/followup.ts`) -/

/-- A Slack delivery target. -/
structure SlackTarget where
  teamId : String
  userId : String
deriving DecidableEq, Repr

/-- The `fromUser` payload field. -/
structure FromUser where
  userId : String
  username : Option String
  isBot : Bool
deriving DecidableEq, Repr

/-- The `payload` of a notification job. -/
structure JobPayload where
  chatId : String
  messageId : String
  chatTitle : String
  caption : String
  file : Option TgDocumentInfo
  fromUser : FromUser
  chatRefPath : String
  messageRefPath : String
deriving DecidableEq, Repr

/-- A `notificationJobs/{jobId}` document. `sentOnce`/`lastSentAt` model the
re-send guard fields the delivery executor may add later (absent at
creation). -/
structure NotificationJobDoc where
  jobId : String
  type : NotificationType
  channel : String
  scheduledAt : Int
  status : String
  targetsSlack : List SlackTarget
  payload : JobPayload
  sourceKind : String
  sourceId : String
  createdAt : Int
  sentOnce : Bool
  lastSentAt : Option Int
deriving DecidableEq, Repr

/-- A Cloud Tasks registration made by `enqueueHttpEtaTask`. -/
structure TaskRec where
  url : String
  payloadJobId : String
  scheduledAt : Int
deriving DecidableEq, Repr

/-- The durable state touched by `createJobAndTask`: the job collection, the
task queue registrations, and the chat documents (phase field only). -/
structure FollowupState where
  jobs : List (String × NotificationJobDoc)
  tasks : List TaskRec
  chats : List (String × Option NextPhase)
deriving DecidableEq, Repr

/-- Firestore `doc(k).get()` over an association-list collection. -/
def getDoc {α : Type} (l : List (String × α)) (k : String) : Option α :=
  (l.find? (fun p => decide (p.1 = k))).map Prod.snd

/-- Firestore `doc(k).set(v)` over an association-list collection. -/
def setDoc {α : Type} (l : List (String × α)) (k : String) (v : α) : List (String × α) :=
  if (l.find? (fun p => decide (p.1 = k))).isSome then
    l.map (fun p => if p.1 = k then (k, v) else p)
  else l ++ [(k, v)]

/-- The deterministic job id: `hashId` of `"job:" + type + ":" + chatId +
":" + messageId`. -/
def jobIdOf (notifType : NotificationType) (chatId messageId : String) : String :=
  hashId ("job:" ++ notifTypeStr notifType ++ ":" ++ chatId ++ ":" ++ messageId)

/-- The arguments of `createJobAndTask`. -/
structure CreateArgs where
  notifType : NotificationType
  scheduledAt : Int
  chatId : String
  messageId : String
  chatTitle : String
  caption : String
  fileInfo : Option TgDocumentInfo
  chatRefPath : String
  messageRefPath : String
  fromUser : FromUser
  slackTargets : List SlackTarget
deriving DecidableEq, Repr

/-- `createJobAndTask` from `src/lib/telegram/followup.ts`: derive the
idempotent job id; if a job with that id exists, return unchanged;
otherwise persist the pending job document, enqueue the Cloud Task, and
advance the chat phase when the type maps to one. `baseUrl` stands for
`process.env.PUBLIC_BASE_URL`; `now` for `Timestamp.now()`. -/
def createJobAndTask (baseUrl : String) (now : Int) (args : CreateArgs)
    (st : FollowupState) : FollowupState :=
  let jobId := jobIdOf args.notifType args.chatId args.messageId
  match getDoc st.jobs jobId with
  | some _ => st
  | none =>
    let jobDoc : NotificationJobDoc :=
      { jobId := jobId
        type := args.notifType
        channel := "slack"
        scheduledAt := args.scheduledAt
        status := "pending"
        targetsSlack := args.slackTargets
        payload :=
          { chatId := args.chatId
            messageId := args.messageId
            chatTitle := args.chatTitle
            caption := args.caption
            file := args.fileInfo
            fromUser := args.fromUser
            chatRefPath := args.chatRefPath
            messageRefPath := args.messageRefPath }
        sourceKind := "message"
        sourceId := args.messageId
        createdAt := now
        sentOnce := false
        lastSentAt := none }
    let st1 : FollowupState := { st with jobs := setDoc st.jobs jobId jobDoc }
    let st2 : FollowupState :=
      { st1 with tasks := st1.tasks ++ [⟨baseUrl ++ "/tasks/notifications", jobId, args.scheduledAt⟩] }
    match PHASE_BY_NOTIF args.notifType with
    | some mappedPhase =>
      let r := upsertChatPhaseIfAdvanced (getDoc st2.chats args.chatId)
        ⟨mappedPhase, now, args.messageId⟩
      match r.2 with
      | some content => { st2 with chats := setDoc st2.chats args.chatId content }
      | none => st2
    | none => st2

/-! ## Delivery executor: `POST /tasks/notifications` in `src/index.ts` -/

/-- The outcome of the one channel call the executor makes (`fetch` to the
Slack webhook): either an HTTP response or a thrown transport exception. -/
inductive SendResult
  | http (status : Nat) (body : String)
  | exn (msg : String)
deriving DecidableEq, Repr

/-- A `notificationDeliveries` record (the fields the executor writes). -/
structure NotificationDeliveryRec where
  jobId : String
  type : NotificationType
  channel : String
  targetsSlack : List SlackTarget
  status : String
  attempt : Nat
  errorMessage : Option String
  responseCode : Nat
deriving DecidableEq, Repr

/-- One store operation performed by the executor, in order. -/
inductive StoreOp
  | addDelivery (d : NotificationDeliveryRec)
  | updateJobSent (jobId : String) (lastSentAt : Int)
  | deleteJob (jobId : String)
deriving DecidableEq, Repr

/-- What an executor invocation returns: HTTP status, the reason token of
its JSON body, the ordered store operations it performed, and the message
body passed to the channel send when one was attempted. -/
structure ExecResult where
  status : Nat
  reason : String
  ops : List StoreOp
  sentText : Option String
deriving DecidableEq, Repr

/-- `MAX_ATTEMPTS` in the executor. -/
def MAX_ATTEMPTS : Nat := 5

/-- The Slack message text the executor composes (a single fixed template,
from `src/index.ts`). -/
def composeSlackText (mentions chatTitle fileName caption createdAt : String) : String :=
  mentions ++ "\n" ++
  "It\x27s been 3 days since you sent the proposal document in *\"" ++ chatTitle ++ "\"*.\n" ++
  "• Document: *" ++ fileName ++ "*\n" ++
  (if caption ≠ "" then "• Caption: *" ++ caption ++ "*" else "") ++ "\n" ++
  "• Sent at: *" ++ createdAt ++ "*\n" ++
  "Please follow up when you have a moment."

/-- The mention string the executor builds from the Slack targets. -/
def executorMentions (job : NotificationJobDoc) : String :=
  String.intercalate " " (job.targetsSlack.map (fun t => "<@" ++ t.userId ++ ">"))

/-- `p.chatTitle || "(no chat title)"`. -/
def executorChatTitle (job : NotificationJobDoc) : String :=
  if job.payload.chatTitle = "" then "(no chat title)" else job.payload.chatTitle

/-- `p.file?.fileName || "(no file)"`. -/
def executorFileName (job : NotificationJobDoc) : String :=
  match job.payload.file.bind TgDocumentInfo.fileName with
  | some s => if s = "" then "(no file)" else s
  | none => "(no file)"

/-- The `POST /tasks/notifications` handler from `src/index.ts`, modelled
from the job lookup onward (`attempt` is the retry-count header plus one;
`job?` is the looked-up document; `webhookUrl` is
`process.env.SLACK_WEBHOOK_URL`; `send` is what the `fetch` to the webhook
would yield; `fmtCreatedAt` is the locale timestamp formatter). -/
def tasksNotificationsExec (attempt : Nat) (jobId : String)
    (job? : Option NotificationJobDoc) (webhookUrl : Option String)
    (send : SendResult) (now : Int) (fmtCreatedAt : Int → String) : ExecResult :=
  match job? with
  | none => ⟨200, "job_not_found", [], none⟩
  | some job =>
    if attempt > MAX_ATTEMPTS then
      ⟨200, "max_attempts_reached",
        [.addDelivery ⟨jobId, job.type, job.channel, job.targetsSlack, "failure", attempt,
          some "max_attempts_reached(5)", 200⟩, .deleteJob jobId], none⟩
    else if job.channel ≠ "slack" ∨ job.targetsSlack = [] then
      ⟨200, "invalid_channel_or_targets",
        [.addDelivery ⟨jobId, job.type, job.channel, job.targetsSlack, "failure", attempt,
          some "invalid_channel_or_targets", 200⟩, .deleteJob jobId], none⟩
    else if job.sentOnce then
      ⟨200, "already_sentOnce",
        [.addDelivery ⟨jobId, job.type, job.channel, job.targetsSlack, "success", attempt,
          none, 200⟩, .deleteJob jobId], none⟩
    else
      let text := composeSlackText (executorMentions job) (executorChatTitle job)
        (executorFileName job) job.payload.caption (fmtCreatedAt job.createdAt)
      match webhookUrl with
      | none =>
        ⟨500, "no_webhook_url",
          [.addDelivery ⟨jobId, job.type, job.channel, job.targetsSlack, "failure", attempt,
            some "SLACK_WEBHOOK_URL is not set", 500⟩], none⟩
      | some _ =>
        match send with
        | .exn m =>
          ⟨500, "slack_webhook_exception",
            [.addDelivery ⟨jobId, job.type, job.channel, job.targetsSlack, "failure", attempt,
              some (String.mk (m.data.take 500)), 0⟩], some text⟩
        | .http st body =>
          let isRetryable := st = 429 ∨ (500 ≤ st ∧ st ≤ 599)
          let ok := 200 ≤ st ∧ st ≤ 299
          let errMsg := if body = "" then "HTTP " ++ toString st else String.mk (body.data.take 500)
          let upd := StoreOp.updateJobSent jobId now
          let del := StoreOp.addDelivery ⟨jobId, job.type, job.channel, job.targetsSlack,
            if ok then "success" else "failure", attempt, if ok then none else some errMsg, st⟩
          if ¬ ok ∧ isRetryable then ⟨500, "slack_webhook_retryable", [upd, del], some text⟩
          else if ¬ ok then ⟨200, "non_retryable_slack_error", [upd, del, .deleteJob jobId], some text⟩
          else ⟨200, "ok", [upd, del, .deleteJob jobId], some text⟩

/-! ## `buildNotificationText` (type-keyed Slack templates) -/

/-- `buildNotificationText`: the 8-body type-keyed Slack template that
exists in the codebase. -/
def buildNotificationText (type : NotificationType)
    (mentions chatTitle fileName caption createdAt : String) : String :=
  let baseInfo :=
    String.intercalate "\n"
      (["• Document: *" ++ fileName ++ "*",
        if caption ≠ "" then "• Caption: *" ++ caption ++ "*" else "",
        "• Sent at: *" ++ createdAt ++ "*"].filter (fun s => decide (s ≠ ""))) ++ "\n"
  match type with
  | .follow_up_bot_join_call_check =>
    mentions ++ "\n" ++
    "Reminder: A new bot was added to *\"" ++ chatTitle ++ "\"* on *" ++ createdAt ++ "*.\n" ++
    "Please check whether the call link has been sent to the group."
  | .follow_up_proposal_1st =>
    mentions ++ "\n" ++
    "It\x27s been 3 days since you sent the proposal document in *\"" ++ chatTitle ++ "\"*.\n" ++
    baseInfo ++ "\n" ++
    "Please follow up when you have a moment."
  | .follow_up_proposal_2nd =>
    mentions ++ "\n" ++
    "It\x27s been 6 days since you sent the proposal document in *\"" ++ chatTitle ++ "\"*.\n" ++
    baseInfo ++ "\n" ++
    "If there has been no response, please send a gentle reminder."
  | .follow_up_invoice_1st =>
    mentions ++ "\n" ++
    "It\x27s been 2 days since you sent the invoice in *\"" ++ chatTitle ++ "\"*.\n" ++
    baseInfo ++ "\n" ++
    "Please check if the client has received it."
  | .follow_up_invoice_2nd =>
    mentions ++ "\n" ++
    "It\x27s been 4 days since you sent the invoice in *\"" ++ chatTitle ++ "\"*.\n" ++
    baseInfo ++ "\n" ++
    "If the payment is still pending, please follow up with the client."
  | .follow_up_calendly =>
    mentions ++ "\n" ++
    "It\x27s been one day since you sent the Calendly link in *\"" ++ chatTitle ++ "\"*.\n" ++
    baseInfo ++ "\n" ++
    "Please check if a meeting has been scheduled."
  | .follow_up_agreement_1st =>
    mentions ++ "\n" ++
    "It\x27s been 2 days since you sent the agreement in *\"" ++ chatTitle ++ "\"*.\n" ++
    baseInfo ++ "\n" ++
    "Please confirm whether the client has reviewed it."
  | .follow_up_agreement_2nd =>
    mentions ++ "\n" ++
    "It\x27s been 4 days since you sent the agreement in *\"" ++ chatTitle ++ "\"*.\n" ++
    baseInfo ++ "\n" ++
    "If there has been no update, please reach out again."

/-! ## Store lemmas -/

lemma getDoc_none_setDoc {α : Type} (l : List (String × α)) (k : String) (v : α)
    (h : getDoc l k = none) : setDoc l k v = l ++ [(k, v)] := by
  unfold setDoc
  rw [if_neg]
  unfold getDoc at h
  intro hs
  rw [Option.map_eq_none'] at h
  rw [h] at hs
  simp at hs

lemma getDoc_append_self {α : Type} (l : List (String × α)) (k : String) (v : α)
    (h : getDoc l k = none) : getDoc (l ++ [(k, v)]) k = some v := by
  unfold getDoc at *
  rw [Option.map_eq_none'] at h
  rw [List.find?_append, h]
  simp

lemma getDoc_none_countP {α : Type} (l : List (String × α)) (k : String)
    (h : getDoc l k = none) : l.countP (fun p => decide (p.1 = k)) = 0 := by
  unfold getDoc at h
  rw [Option.map_eq_none', List.find?_eq_none] at h
  rw [List.countP_eq_zero]
  exact h

lemma countP_append_self {α : Type} (l : List (String × α)) (k : String) (v : α)
    (h : getDoc l k = none) :
    (l ++ [(k, v)]).countP (fun p => decide (p.1 = k)) = 1 := by
  rw [List.countP_append, getDoc_none_countP l k h]
  simp [List.countP_cons]

/-! ## Claim C1: deterministic job id and idempotent job creation -/

/-- The job document `createJobAndTask` persists when no job with the
derived id exists yet. -/
def jobDocOf (now : Int) (args : CreateArgs) : NotificationJobDoc where
  jobId := jobIdOf args.notifType args.chatId args.messageId
  type := args.notifType
  channel := "slack"
  scheduledAt := args.scheduledAt
  status := "pending"
  targetsSlack := args.slackTargets
  payload :=
    { chatId := args.chatId
      messageId := args.messageId
      chatTitle := args.chatTitle
      caption := args.caption
      file := args.fileInfo
      fromUser := args.fromUser
      chatRefPath := args.chatRefPath
      messageRefPath := args.messageRefPath }
  sourceKind := "message"
  sourceId := args.messageId
  createdAt := now
  sentOnce := false
  lastSentAt := none

lemma createJobAndTask_absent (baseUrl : String) (now : Int) (args : CreateArgs)
    (st : FollowupState)
    (h : getDoc st.jobs (jobIdOf args.notifType args.chatId args.messageId) = none) :
    ∃ d : NotificationJobDoc,
      (createJobAndTask baseUrl now args st).jobs
        = st.jobs ++ [(jobIdOf args.notifType args.chatId args.messageId, d)]
      ∧ d.status = "pending" := by
  refine ⟨jobDocOf now args, ?_, rfl⟩
  simp only [createJobAndTask, h]
  rcases hp : PHASE_BY_NOTIF args.notifType with _ | p
  · simp only
    rw [getDoc_none_setDoc _ _ _ h]
    rfl
  · simp only
    rcases hr : (upsertChatPhaseIfAdvanced
        (getDoc st.chats args.chatId) ⟨p, now, args.messageId⟩).2 with _ | content
    · simp only [hr]
      rw [getDoc_none_setDoc _ _ _ h]
      rfl
    · simp only [hr]
      rw [getDoc_none_setDoc _ _ _ h]
      rfl

lemma createJobAndTask_present (baseUrl : String) (now : Int) (args : CreateArgs)
    (st : FollowupState) (d : NotificationJobDoc)
    (h : getDoc st.jobs (jobIdOf args.notifType args.chatId args.messageId) = some d) :
    createJobAndTask baseUrl now args st = st := by
  simp only [createJobAndTask, h]

/-- Claim C1: the job id is a pure function of (type, chatId, messageId) —
the same inputs always re-derive the same id — and creating the same job
twice persists exactly one pending job document: the second call observes
the existing document and returns with no job write, no task enqueue, and
no other state change. -/
theorem C1_jobId_deterministic_creation_idempotent
    (baseUrl : String) (now now2 : Int) (args : CreateArgs) (st : FollowupState)
    (habsent : getDoc st.jobs (jobIdOf args.notifType args.chatId args.messageId) = none) :
    (∀ a b : CreateArgs, a.notifType = b.notifType → a.chatId = b.chatId →
      a.messageId = b.messageId →
      jobIdOf a.notifType a.chatId a.messageId = jobIdOf b.notifType b.chatId b.messageId) ∧
    createJobAndTask baseUrl now2 args (createJobAndTask baseUrl now args st)
      = createJobAndTask baseUrl now args st ∧
    (createJobAndTask baseUrl now args st).jobs.countP
      (fun p => decide (p.1 = jobIdOf args.notifType args.chatId args.messageId)) = 1 ∧
    ∃ d, getDoc (createJobAndTask baseUrl now args st).jobs
        (jobIdOf args.notifType args.chatId args.messageId) = some d ∧ d.status = "pending" := by
  obtain ⟨d, hjobs, hpend⟩ := createJobAndTask_absent baseUrl now args st habsent
  have hlook : getDoc (createJobAndTask baseUrl now args st).jobs
      (jobIdOf args.notifType args.chatId args.messageId) = some d := by
    rw [hjobs]
    exact getDoc_append_self _ _ _ habsent
  refine ⟨?_, ?_, ?_, d, hlook, hpend⟩
  · intro a b h1 h2 h3
    rw [h1, h2, h3]
  · exact createJobAndTask_present baseUrl now2 args _ d hlook
  · rw [hjobs]
    exact countP_append_self _ _ _ habsent

/-- Witness for C1 at a concrete input: the empty store satisfies the
absence hypothesis, and the theorem instantiates. -/
theorem C1_witness :
    createJobAndTask "https://svc" 9
      ⟨.follow_up_proposal_1st, 5, "1", "2", "T", "", none, "c/1", "m/2", ⟨"u", none, false⟩, []⟩
      (createJobAndTask "https://svc" 7
        ⟨.follow_up_proposal_1st, 5, "1", "2", "T", "", none, "c/1", "m/2", ⟨"u", none, false⟩, []⟩
        ⟨[], [], []⟩)
      = createJobAndTask "https://svc" 7
        ⟨.follow_up_proposal_1st, 5, "1", "2", "T", "", none, "c/1", "m/2", ⟨"u", none, false⟩, []⟩
        ⟨[], [], []⟩ :=
  (C1_jobId_deterministic_creation_idempotent "https://svc" 7 9
    ⟨.follow_up_proposal_1st, 5, "1", "2", "T", "", none, "c/1", "m/2", ⟨"u", none, false⟩, []⟩
    ⟨[], [], []⟩ rfl).2.1

/-! ## Claim C2: monotone, idempotent phase machine -/

/-- The ordinal rank of the phase stored on a chat document (0 when the
document or its phase field is absent). -/
def storedPhaseRank : Option (Option NextPhase) → Nat
  | some (some c) => PHASE_PRIORITY c.value
  | _ => 0

lemma PHASE_PRIORITY_pos (v : ChatPhase) : 1 ≤ PHASE_PRIORITY v := by
  cases v <;> decide

lemma upsert_rank_mono (doc : Option (Option NextPhase)) (next : NextPhase) :
    storedPhaseRank doc ≤ storedPhaseRank (upsertChatPhaseIfAdvanced doc next).2 := by
  unfold upsertChatPhaseIfAdvanced storedPhaseRank
  rcases doc with _ | curr
  · simp
  · rcases curr with _ | c
    · simp
    · dsimp only
      split_ifs <;> simp_all <;> omega

/-- Claim C2: a candidate phase is applied iff no phase is stored yet or its
rank strictly exceeds the stored rank; replaying the stored (value,
messageId) pair is a no-op returning false; and the stored rank never
decreases, including across any sequence of calls. -/
theorem C2_phase_monotone_idempotent (doc : Option (Option NextPhase)) (next : NextPhase) :
    ((upsertChatPhaseIfAdvanced doc next).1 = true ↔
      (doc = none ∨ doc = some none) ∨
        storedPhaseRank doc < PHASE_PRIORITY next.value) ∧
    (∀ curr : NextPhase, doc = some (some curr) → curr.value = next.value →
      curr.messageId = next.messageId →
      upsertChatPhaseIfAdvanced doc next = (false, doc)) ∧
    storedPhaseRank doc ≤ storedPhaseRank (upsertChatPhaseIfAdvanced doc next).2 ∧
    (∀ cands : List NextPhase,
      storedPhaseRank doc ≤
        storedPhaseRank (cands.foldl (fun d c => (upsertChatPhaseIfAdvanced d c).2) doc)) := by
  refine ⟨?_, ?_, upsert_rank_mono doc next, ?_⟩
  · unfold upsertChatPhaseIfAdvanced storedPhaseRank
    rcases doc with _ | curr
    · simp
    · rcases curr with _ | c
      · simpa using PHASE_PRIORITY_pos next.value
      · have hval : c.value = next.value → PHASE_PRIORITY c.value = PHASE_PRIORITY next.value :=
          fun h => by rw [h]
        dsimp only
        split_ifs with h1 h2 <;> simp_all <;> omega
  · intro curr hdoc hval hmsg
    subst hdoc
    unfold upsertChatPhaseIfAdvanced
    dsimp only
    rw [if_pos (by simp [hval, hmsg])]
  · intro cands
    induction cands generalizing doc with
    | nil => simp
    | cons c rest ih =>
      simp only [List.foldl_cons]
      exact Nat.le_trans (upsert_rank_mono doc c) (ih _)

/-- Witness for C2 at a concrete input: replaying the stored pair is
refused, and the rank conditions hold. -/
theorem C2_witness :
    upsertChatPhaseIfAdvanced (some (some ⟨.ProposalSent, 5, "m9"⟩)) ⟨.ProposalSent, 8, "m9"⟩
      = (false, some (some ⟨.ProposalSent, 5, "m9"⟩)) :=
  (C2_phase_monotone_idempotent (some (some ⟨.ProposalSent, 5, "m9"⟩))
    ⟨.ProposalSent, 8, "m9"⟩).2.1 ⟨.ProposalSent, 5, "m9"⟩ rfl rfl rfl

/-! ## Claim C3: the bot-join snap branch (evaluated at the divergence) -/

/-- Claim C3, evaluated: for a `follow_up_bot_join_call_check` trigger at
2025-01-08T15:30:00Z (00:30 JST on Jan 9, so origin+3h = 03:30 JST falls in
the [3,11] snap window), the code schedules 2025-01-08T17:00:00Z — whose JST
wall clock is 02:00, nine hours before the 11:00 JST the snap comment and
the claim describe, and even before origin+3h. Outside the window the
instant is passed through unchanged: origin 2025-01-09T11:00:00Z (20:00
JST) yields 2025-01-09T14:00:00Z (23:00 JST). -/
theorem C3_bot_join_snap_eval :
    getFollowupSchedules .follow_up_bot_join_call_check 1736350200000
      = [(.follow_up_bot_join_call_check, 1736355600000)] ∧
    getUTCHours (1736355600000 + jstOffsetMs) = 2 ∧
    getUTCHours (1736350200000 + 3 * 3600000 + jstOffsetMs) = 3 ∧
    getFollowupSchedules .follow_up_bot_join_call_check 1736420400000
      = [(.follow_up_bot_join_call_check, 1736431200000)] ∧
    getUTCHours (1736431200000 + jstOffsetMs) = 23 := by
  decide

/-! ## Executor helper predicates -/

/-- Whether a store operation is the `sentOnce`/`lastSentAt` job update. -/
def isUpdateJobSentOp : StoreOp → Bool
  | .updateJobSent _ _ => true
  | _ => false

/-- Whether a store operation deletes the job document. -/
def isDeleteOp : StoreOp → Bool
  | .deleteJob _ => true
  | _ => false

/-- Whether a store operation writes a delivery record. -/
def isAddDeliveryOp : StoreOp → Bool
  | .addDelivery _ => true
  | _ => false

/-- A sample job document used by the concrete executor evaluations. -/
def sampleJob : NotificationJobDoc where
  jobId := "j1"
  type := .follow_up_proposal_1st
  channel := "slack"
  scheduledAt := 0
  status := "pending"
  targetsSlack := [⟨"T1", "U1"⟩]
  payload :=
    { chatId := "c1"
      messageId := "m1"
      chatTitle := "Chat"
      caption := "cap"
      file := some ⟨some "f1", some "deck.pdf", none, none⟩
      fromUser := ⟨"u1", none, false⟩
      chatRefPath := "tg_chats/c1"
      messageRefPath := "tg_chats/c1/messages/m1" }
  sourceKind := "message"
  sourceId := "m1"
  createdAt := 3
  sentOnce := false
  lastSentAt := none

/-! ## Claim C4: when the re-send guard is set -/

/-- Counterexample to C4 as stated: on a transport exception the catch path
performs no `sentOnce`/`lastSentAt` update at all. -/
theorem C4_counterexample :
    ((tasksNotificationsExec 1 "j1" (some sampleJob) (some "https://hooks.example")
        (.exn "socket hang up") 77 (fun _ => "ts")).ops.countP isUpdateJobSentOp) = 0 := by
  decide

/-- Claim C4 as amended: after a send attempt that yields an HTTP response —
2xx success or any non-2xx failure alike — the executor sets the re-send
guard and `lastSentAt` on the job; on a transport exception the catch path
writes only the failure delivery record and never sets them. -/
theorem C4_guard_set_only_on_http_response
    (attempt : Nat) (jobId : String) (job : NotificationJobDoc) (url : String)
    (now : Int) (fmt : Int → String)
    (h1 : attempt ≤ MAX_ATTEMPTS) (h2 : job.channel = "slack")
    (h3 : job.targetsSlack ≠ []) (h4 : job.sentOnce = false) :
    (∀ st body, StoreOp.updateJobSent jobId now ∈
      (tasksNotificationsExec attempt jobId (some job) (some url)
        (.http st body) now fmt).ops) ∧
    (∀ m, ((tasksNotificationsExec attempt jobId (some job) (some url)
        (.exn m) now fmt).ops.countP isUpdateJobSentOp) = 0) := by
  constructor
  · intro st body
    unfold tasksNotificationsExec
    have h1x : ¬ (attempt > MAX_ATTEMPTS) := by unfold MAX_ATTEMPTS at h1 ⊢; omega
    have h2x : ¬ (job.channel ≠ "slack" ∨ job.targetsSlack = []) := by simp [h2, h3]
    have h3x : ¬ (job.sentOnce = true) := by simp [h4]
    dsimp only
    rw [if_neg h1x, if_neg h2x, if_neg h3x]
    split_ifs <;> simp
  · intro m
    unfold tasksNotificationsExec
    have h1x : ¬ (attempt > MAX_ATTEMPTS) := by unfold MAX_ATTEMPTS at h1 ⊢; omega
    have h2x : ¬ (job.channel ≠ "slack" ∨ job.targetsSlack = []) := by simp [h2, h3]
    have h3x : ¬ (job.sentOnce = true) := by simp [h4]
    dsimp only
    rw [if_neg h1x, if_neg h2x, if_neg h3x]
    simp [isUpdateJobSentOp]

/-- Witness for C4 amended: concrete instances of both conjuncts. -/
theorem C4_witness :
    StoreOp.updateJobSent "j1" 77 ∈
      (tasksNotificationsExec 1 "j1" (some sampleJob) (some "https://hooks.example")
        (.http 404 "nope") 77 (fun _ => "ts")).ops ∧
    ((tasksNotificationsExec 1 "j1" (some sampleJob) (some "https://hooks.example")
        (.exn "boom") 77 (fun _ => "ts")).ops.countP isUpdateJobSentOp) = 0 := by
  have h := C4_guard_set_only_on_http_response 1 "j1" sampleJob "https://hooks.example" 77
    (fun _ => "ts") (by decide) rfl (by decide) rfl
  exact ⟨h.1 404 "nope", h.2 "boom"⟩

/-! ## Claim C5: retryable vs non-retryable failure classification -/

/-- Claim C5: an HTTP 429 or 5xx failure, and a transport exception, are
retryable — the handler responds 500 and does not delete the job; any other
non-2xx response is non-retryable — a failure delivery record is written,
the job is deleted, and the handler responds 200. -/
theorem C5_failure_classification
    (attempt : Nat) (jobId : String) (job : NotificationJobDoc) (url : String)
    (now : Int) (fmt : Int → String)
    (h1 : attempt ≤ MAX_ATTEMPTS) (h2 : job.channel = "slack")
    (h3 : job.targetsSlack ≠ []) (h4 : job.sentOnce = false) :
    (∀ st body, ¬ (200 ≤ st ∧ st ≤ 299) → (st = 429 ∨ (500 ≤ st ∧ st ≤ 599)) →
      (tasksNotificationsExec attempt jobId (some job) (some url)
          (.http st body) now fmt).status = 500 ∧
      ((tasksNotificationsExec attempt jobId (some job) (some url)
          (.http st body) now fmt).ops.countP isDeleteOp) = 0) ∧
    (∀ m, (tasksNotificationsExec attempt jobId (some job) (some url)
          (.exn m) now fmt).status = 500 ∧
      ((tasksNotificationsExec attempt jobId (some job) (some url)
          (.exn m) now fmt).ops.countP isDeleteOp) = 0) ∧
    (∀ st body, ¬ (200 ≤ st ∧ st ≤ 299) → ¬ (st = 429 ∨ (500 ≤ st ∧ st ≤ 599)) →
      (tasksNotificationsExec attempt jobId (some job) (some url)
          (.http st body) now fmt).status = 200 ∧
      ((tasksNotificationsExec attempt jobId (some job) (some url)
          (.http st body) now fmt).ops.countP isDeleteOp) = 1 ∧
      ∃ d, StoreOp.addDelivery d ∈ (tasksNotificationsExec attempt jobId (some job) (some url)
          (.http st body) now fmt).ops ∧ d.status = "failure") := by
  refine ⟨?_, ?_, ?_⟩
  · intro st body hok hretry
    unfold tasksNotificationsExec
    have h1x : ¬ (attempt > MAX_ATTEMPTS) := by unfold MAX_ATTEMPTS at h1 ⊢; omega
    have h2x : ¬ (job.channel ≠ "slack" ∨ job.targetsSlack = []) := by simp [h2, h3]
    have h3x : ¬ (job.sentOnce = true) := by simp [h4]
    dsimp only
    rw [if_neg h1x, if_neg h2x, if_neg h3x]
    rw [if_pos (show ¬ (200 ≤ st ∧ st ≤ 299) ∧ (st = 429 ∨ 500 ≤ st ∧ st ≤ 599) from ⟨hok, hretry⟩)]
    simp [isDeleteOp]
  · intro m
    unfold tasksNotificationsExec
    have h1x : ¬ (attempt > MAX_ATTEMPTS) := by unfold MAX_ATTEMPTS at h1 ⊢; omega
    have h2x : ¬ (job.channel ≠ "slack" ∨ job.targetsSlack = []) := by simp [h2, h3]
    have h3x : ¬ (job.sentOnce = true) := by simp [h4]
    dsimp only
    rw [if_neg h1x, if_neg h2x, if_neg h3x]
    simp [isDeleteOp]
  · intro st body hok hretry
    unfold tasksNotificationsExec
    have h1x : ¬ (attempt > MAX_ATTEMPTS) := by unfold MAX_ATTEMPTS at h1 ⊢; omega
    have h2x : ¬ (job.channel ≠ "slack" ∨ job.targetsSlack = []) := by simp [h2, h3]
    have h3x : ¬ (job.sentOnce = true) := by simp [h4]
    dsimp only
    rw [if_neg h1x, if_neg h2x, if_neg h3x]
    rw [if_neg (show ¬ (¬ (200 ≤ st ∧ st ≤ 299) ∧ (st = 429 ∨ 500 ≤ st ∧ st ≤ 599)) by tauto),
      if_pos hok]
    refine ⟨rfl, by simp [isDeleteOp], ?_⟩
    refine ⟨_, List.mem_cons_of_mem _ (List.mem_cons_self _ _), ?_⟩
    simp [hok]

/-- Witness for C5: concrete instances — a 503 (retryable), an exception,
and a 404 (non-retryable). -/
theorem C5_witness :
    (tasksNotificationsExec 1 "j1" (some sampleJob) (some "https://hooks.example")
        (.http 503 "eek") 77 (fun _ => "ts")).status = 500 ∧
    (tasksNotificationsExec 1 "j1" (some sampleJob) (some "https://hooks.example")
        (.exn "boom") 77 (fun _ => "ts")).status = 500 ∧
    (tasksNotificationsExec 1 "j1" (some sampleJob) (some "https://hooks.example")
        (.http 404 "nope") 77 (fun _ => "ts")).status = 200 := by
  have h := C5_failure_classification 1 "j1" sampleJob "https://hooks.example" 77
    (fun _ => "ts") (by decide) rfl (by decide) rfl
  exact ⟨(h.1 503 "eek" (by omega) (by omega)).1, (h.2.1 "boom").1,
    (h.2.2 404 "nope" (by omega) (by omega)).1⟩

/-! ## Claim C6: retries-exhausted terminal branch -/

/-- Claim C6: when the attempt count exceeds the fixed ceiling of 5 for an
existing job, the executor writes one retries-exhausted failure delivery
record, deletes the job, responds 200, and never attempts the channel send
— the result is identical for every webhook configuration, channel
outcome, clock value and formatter. -/
theorem C6_retries_exhausted
    (attempt : Nat) (jobId : String) (job : NotificationJobDoc)
    (url url2 : Option String) (send send2 : SendResult) (now now2 : Int)
    (fmt fmt2 : Int → String) (h : attempt > MAX_ATTEMPTS) :
    tasksNotificationsExec attempt jobId (some job) url send now fmt
      = tasksNotificationsExec attempt jobId (some job) url2 send2 now2 fmt2 ∧
    (tasksNotificationsExec attempt jobId (some job) url send now fmt).status = 200 ∧
    (tasksNotificationsExec attempt jobId (some job) url send now fmt).sentText = none ∧
    (tasksNotificationsExec attempt jobId (some job) url send now fmt).ops
      = [.addDelivery ⟨jobId, job.type, job.channel, job.targetsSlack, "failure", attempt,
          some "max_attempts_reached(5)", 200⟩, .deleteJob jobId] := by
  unfold tasksNotificationsExec
  dsimp only
  rw [if_pos h, if_pos h]
  exact ⟨rfl, rfl, rfl, rfl⟩

/-- Witness for C6 at attempt 6 with an unreachable channel. -/
theorem C6_witness :
    (tasksNotificationsExec 6 "j1" (some sampleJob) none (.exn "unreachable") 77
        (fun _ => "ts")).status = 200 :=
  (C6_retries_exhausted 6 "j1" sampleJob none none (.exn "unreachable") (.exn "unreachable")
    77 77 (fun _ => "ts") (fun _ => "ts") (by decide)).2.1

/-! ## Claim C10: exactly one delivery record before any job deletion -/

/-- Scan the ordered store operations, counting delivery writes, and check
that at every job deletion exactly one delivery record has been written
before it. -/
def deliveryThenDeleteScan : List StoreOp → Nat → Bool
  | [], _ => true
  | .addDelivery _ :: rest, seen => deliveryThenDeleteScan rest (seen + 1)
  | .deleteJob _ :: rest, seen => decide (seen = 1) && deliveryThenDeleteScan rest seen
  | .updateJobSent _ _ :: rest, seen => deliveryThenDeleteScan rest seen

/-- Claim C10: in every executor invocation that deletes the job document,
exactly one delivery record is written, and it is written before the
deletion; the only invocation that writes no delivery record at all is the
job-not-found no-op. -/
theorem C10_delete_implies_one_delivery_before
    (attempt : Nat) (jobId : String) (job? : Option NotificationJobDoc)
    (url : Option String) (send : SendResult) (now : Int) (fmt : Int → String) :
    (((tasksNotificationsExec attempt jobId job? url send now fmt).ops.countP isDeleteOp) ≥ 1 →
      ((tasksNotificationsExec attempt jobId job? url send now fmt).ops.countP
          isAddDeliveryOp) = 1 ∧
      deliveryThenDeleteScan (tasksNotificationsExec attempt jobId job? url send now fmt).ops 0
        = true) ∧
    (((tasksNotificationsExec attempt jobId job? url send now fmt).ops.countP
        isAddDeliveryOp) = 0 ↔ job? = none) := by
  rcases job? with _ | job
  · constructor
    · intro h
      simp [tasksNotificationsExec, isDeleteOp] at h
    · simp [tasksNotificationsExec, isAddDeliveryOp]
  · unfold tasksNotificationsExec
    dsimp only
    rcases url with _ | u
    · split_ifs <;>
        simp [isDeleteOp, isAddDeliveryOp, deliveryThenDeleteScan, List.countP_cons]
    · rcases send with ⟨st, body⟩ | ⟨m⟩
      · dsimp only
        by_cases hok : 200 ≤ st ∧ st ≤ 299
        · rw [if_neg (show ¬ (¬ (200 ≤ st ∧ st ≤ 299) ∧ (st = 429 ∨ 500 ≤ st ∧ st ≤ 599))
              by tauto),
            if_neg (show ¬ ¬ (200 ≤ st ∧ st ≤ 299) by tauto)]
          split_ifs <;>
            simp [isDeleteOp, isAddDeliveryOp, deliveryThenDeleteScan, List.countP_cons]
        · by_cases hre : st = 429 ∨ 500 ≤ st ∧ st ≤ 599
          · rw [if_pos (show ¬ (200 ≤ st ∧ st ≤ 299) ∧ (st = 429 ∨ 500 ≤ st ∧ st ≤ 599)
                from ⟨hok, hre⟩)]
            split_ifs <;>
              simp [isDeleteOp, isAddDeliveryOp, deliveryThenDeleteScan, List.countP_cons]
          · rw [if_neg (show ¬ (¬ (200 ≤ st ∧ st ≤ 299) ∧ (st = 429 ∨ 500 ≤ st ∧ st ≤ 599))
                by tauto),
              if_pos hok]
            split_ifs <;>
              simp [isDeleteOp, isAddDeliveryOp, deliveryThenDeleteScan, List.countP_cons]
      · dsimp only
        split_ifs <;>
          simp [isDeleteOp, isAddDeliveryOp, deliveryThenDeleteScan, List.countP_cons]

/-- Witness for C10: a successful send deletes the job, and indeed exactly
one delivery record precedes the deletion. -/
theorem C10_witness :
    ((tasksNotificationsExec 1 "j1" (some sampleJob) (some "https://hooks.example")
        (.http 200 "ok") 77 (fun _ => "ts")).ops.countP isAddDeliveryOp) = 1 :=
  ((C10_delete_implies_one_delivery_before 1 "j1" (some sampleJob)
      (some "https://hooks.example") (.http 200 "ok") 77 (fun _ => "ts")).1
    (by decide)).1

/-! ## Claim C7: the proposal planner and business-day arithmetic -/

/-- Claim C7: for every origin instant, `proposal_1st` expands to exactly
the two entries (proposal_1st, +3 business days at 15:00 JST) and
(proposal_2nd, +6 business days at 15:00 JST) under the specification
counting rule (step one calendar day, count only Monday–Friday, starting
from the origin JST calendar date); a Thursday origin +3 business days
lands on the following Tuesday; and at the concrete Thursday instant
2025-01-09T10:00:00Z the planner yields 2025-01-14T06:00:00Z and
2025-01-17T06:00:00Z. -/
theorem C7_proposal_planner (sentAt : Int) :
    getFollowupSchedules .follow_up_proposal_1st sentAt
      = [(.follow_up_proposal_1st, specBusinessDayTarget sentAt 3),
         (.follow_up_proposal_2nd, specBusinessDayTarget sentAt 6)] ∧
    (specAddBusinessDays 3 20097 = 20102 ∧ dayOfWeekNum 20097 = 4 ∧ dayOfWeekNum 20102 = 2) ∧
    getFollowupSchedules .follow_up_proposal_1st 1736416800000
      = [(.follow_up_proposal_1st, 1736834400000), (.follow_up_proposal_2nd, 1737093600000)] := by
  have hgen : ∀ s : Int, getFollowupSchedules .follow_up_proposal_1st s
      = [(.follow_up_proposal_1st, specBusinessDayTarget s 3),
         (.follow_up_proposal_2nd, specBusinessDayTarget s 6)] := by
    intro s
    unfold getFollowupSchedules
    dsimp only
    rw [scheduleAtJST_eq_spec, scheduleAtJST_eq_spec]
  have h3 : specAddBusinessDays 3 20097 = 20102 := by
    simp [specAddBusinessDays, dayOfWeekNum]
  have h6 : specAddBusinessDays 6 20097 = 20105 := by
    simp [specAddBusinessDays, dayOfWeekNum]
  refine ⟨hgen sentAt, ⟨h3, by decide, by decide⟩, ?_⟩
  rw [hgen 1736416800000]
  unfold specBusinessDayTarget
  rw [show ((1736416800000 : Int) + jstOffsetMs) / 86400000 = 20097 from by decide]
  rw [h3, h6]
  decide

/-! ## Claim C8: the ordered classifier rules -/

/-- The lowercased newline-separated concatenation of caption, text and
file name over which the code matches keywords. -/
def specCombinedSeparated (msg : TgMessage) : String :=
  jsToLower (msg.caption.getD "" ++ "\n" ++ msg.text.getD ""
    ++ "\n" ++ (msg.document.bind TgDocumentInfo.fileName).getD "")

/-- The lowercased plain concatenation of caption, text and file name, as
claim C8 literally words it (no separators). -/
def specCombinedPlain (msg : TgMessage) : String :=
  jsToLower (msg.caption.getD "" ++ msg.text.getD ""
    ++ (msg.document.bind TgDocumentInfo.fileName).getD "")

/-- The ordered first-match-wins rule list of the specification, over a
given combined text: internal-sender guard, then bot-join, proposal,
invoice, calendly, agreement. -/
def specClassifier (combined : String) (msg : TgMessage) (type : MessageType) :
    Option NotificationType :=
  if isFromInternal msg.fromId = false then none
  else if decide (type = MessageType.member_join) &&
      (match msg.newChatMembers with
       | some members => members.any (fun u => decide (u.username = some BOT_USERNAME))
       | none => false) then some .follow_up_bot_join_call_check
  else if (strIncludes combined "docs.google.com" || strIncludes combined "drive.google.com") &&
      strIncludes combined "proposal" then some .follow_up_proposal_1st
  else if decide (type = MessageType.document) && strIncludes combined "invoice" then
    some .follow_up_invoice_1st
  else if strIncludes combined "calendly.com" then some .follow_up_calendly
  else if (strIncludes combined "docs.google.com" || strIncludes combined "drive.google.com") &&
      strIncludes combined "agreement" then some .follow_up_agreement_1st
  else none

/-- A message whose caption/text split the keyword `calendly.com` across
the field boundary: plain concatenation contains the keyword, the
newline-separated text the code builds does not. -/
def c8msg : TgMessage where
  fromId := some "951221958"
  fromUsername := some "jazcomoda"
  fromIsBot := false
  chatId := "c1"
  chatTitle := some "Chat"
  messageId := "m1"
  caption := some "calendly.co"
  text := some "m"
  document := none
  newChatMembers := none

/-- Counterexample to C8 as stated: with caption "calendly.co" and text
"m" from an internal sender, the plain concatenation the claim describes
contains "calendly.com", so the claim mandates the calendly type — but the
code, which joins the fields with newlines, yields none. -/
theorem C8_counterexample :
    getFollowupType c8msg .text = none ∧
    specClassifier (specCombinedPlain c8msg) c8msg .text = some .follow_up_calendly ∧
    getFollowupType c8msg .text ≠ specClassifier (specCombinedPlain c8msg) c8msg .text := by
  decide

/-- Claim C8 as amended: the classifier yields a type only for internal
senders and applies the ordered first-match-wins rules over the lowercased
newline-separated concatenation of caption, text and file name. -/
theorem C8_classifier_refines_spec (msg : TgMessage) (type : MessageType) :
    getFollowupType msg type = specClassifier (specCombinedSeparated msg) msg type := by
  unfold getFollowupType specClassifier specCombinedSeparated
  simp only [List.any_cons, List.any_nil, Bool.or_false]

/-! ## Claim C9: the outbound message composition -/

/-- `sub` occurs as a contiguous substring of `s`. -/
def containsStr (s sub : String) : Prop :=
  ∃ p q : List Char, s.data = p ++ sub.data ++ q

lemma composeSlackText_references (m t f c d : String) (hcap : c ≠ "") :
    containsStr (composeSlackText m t f c d) m ∧
    containsStr (composeSlackText m t f c d) t ∧
    containsStr (composeSlackText m t f c d) f ∧
    containsStr (composeSlackText m t f c d) c ∧
    containsStr (composeSlackText m t f c d) d := by
  unfold composeSlackText containsStr
  rw [if_pos hcap]
  refine ⟨⟨[], ("\n" ++
      "It\x27s been 3 days since you sent the proposal document in *\"" ++ t ++ "\"*.\n" ++
      "• Document: *" ++ f ++ "*\n" ++ ("• Caption: *" ++ c ++ "*") ++ "\n" ++
      "• Sent at: *" ++ d ++ "*\n" ++ "Please follow up when you have a moment.").data, ?_⟩,
    ⟨(m ++ "\n" ++
      "It\x27s been 3 days since you sent the proposal document in *\"").data,
      ("\"*.\n" ++ "• Document: *" ++ f ++ "*\n" ++ ("• Caption: *" ++ c ++ "*") ++ "\n" ++
      "• Sent at: *" ++ d ++ "*\n" ++ "Please follow up when you have a moment.").data, ?_⟩,
    ⟨(m ++ "\n" ++
      "It\x27s been 3 days since you sent the proposal document in *\"" ++ t ++ "\"*.\n" ++
      "• Document: *").data,
      ("*\n" ++ ("• Caption: *" ++ c ++ "*") ++ "\n" ++
      "• Sent at: *" ++ d ++ "*\n" ++ "Please follow up when you have a moment.").data, ?_⟩,
    ⟨(m ++ "\n" ++
      "It\x27s been 3 days since you sent the proposal document in *\"" ++ t ++ "\"*.\n" ++
      "• Document: *" ++ f ++ "*\n" ++ "• Caption: *").data,
      ("*" ++ "\n" ++ "• Sent at: *" ++ d ++ "*\n" ++
      "Please follow up when you have a moment.").data, ?_⟩,
    ⟨(m ++ "\n" ++
      "It\x27s been 3 days since you sent the proposal document in *\"" ++ t ++ "\"*.\n" ++
      "• Document: *" ++ f ++ "*\n" ++ ("• Caption: *" ++ c ++ "*") ++ "\n" ++
      "• Sent at: *").data,
      ("*\n" ++ "Please follow up when you have a moment.").data, ?_⟩⟩ <;>
  simp [String.data_append, List.append_assoc]

/-- The sample job with its notification type changed to `invoice_1st`. -/
def sampleJobInvoice : NotificationJobDoc :=
  { sampleJob with type := .follow_up_invoice_1st }

set_option maxRecDepth 8000 in
/-- Counterexample to C9 as stated: the executor composes the identical
message for a proposal job and an invoice job — the text does not depend on
the notification type — while the type-keyed 8-body template
(`buildNotificationText`, present in the codebase but unused by the
executor) gives those two types different bodies. -/
theorem C9_counterexample :
    (tasksNotificationsExec 1 "j1" (some sampleJob) (some "https://hooks.example")
        (.http 200 "ok") 77 (fun _ => "2025/10/11 10:18:15 JST")).sentText
      = (tasksNotificationsExec 1 "j1" (some sampleJobInvoice) (some "https://hooks.example")
        (.http 200 "ok") 77 (fun _ => "2025/10/11 10:18:15 JST")).sentText ∧
    buildNotificationText .follow_up_proposal_1st "<@U1>" "Chat" "deck.pdf" "cap" "ts"
      ≠ buildNotificationText .follow_up_invoice_1st "<@U1>" "Chat" "deck.pdf" "cap" "ts" := by
  decide

/-- Claim C9 as amended: for every delivered job the executor composes the
message from the single fixed proposal-style template, independent of the
notification type, referencing the recipient mentions, the conversation
title, the referenced file name, the caption (when present) and the
formatted job-creation timestamp. -/
theorem C9_single_fixed_template
    (attempt : Nat) (jobId : String) (job : NotificationJobDoc) (url : String)
    (now : Int) (fmt : Int → String)
    (h1 : attempt ≤ MAX_ATTEMPTS) (h2 : job.channel = "slack")
    (h3 : job.targetsSlack ≠ []) (h4 : job.sentOnce = false) :
    (∀ st body,
      (tasksNotificationsExec attempt jobId (some job) (some url)
          (.http st body) now fmt).sentText
        = some (composeSlackText (executorMentions job) (executorChatTitle job)
            (executorFileName job) job.payload.caption (fmt job.createdAt))) ∧
    (∀ t1 t2 : NotificationType, ∀ st body,
      (tasksNotificationsExec attempt jobId (some { job with type := t1 }) (some url)
          (.http st body) now fmt).sentText
        = (tasksNotificationsExec attempt jobId (some { job with type := t2 }) (some url)
          (.http st body) now fmt).sentText) ∧
    (∀ m t f c d : String, c ≠ "" →
      containsStr (composeSlackText m t f c d) m ∧
      containsStr (composeSlackText m t f c d) t ∧
      containsStr (composeSlackText m t f c d) f ∧
      containsStr (composeSlackText m t f c d) c ∧
      containsStr (composeSlackText m t f c d) d) := by
  have key : ∀ j : NotificationJobDoc, j.channel = "slack" → j.targetsSlack ≠ [] →
      j.sentOnce = false → ∀ st body : _,
      (tasksNotificationsExec attempt jobId (some j) (some url)
          (.http st body) now fmt).sentText
        = some (composeSlackText (executorMentions j) (executorChatTitle j)
            (executorFileName j) j.payload.caption (fmt j.createdAt)) := by
    intro j hj2 hj3 hj4 st body
    unfold tasksNotificationsExec
    have h1x : ¬ (attempt > MAX_ATTEMPTS) := by unfold MAX_ATTEMPTS at h1 ⊢; omega
    have h2x : ¬ (j.channel ≠ "slack" ∨ j.targetsSlack = []) := by simp [hj2, hj3]
    have h3x : ¬ (j.sentOnce = true) := by simp [hj4]
    dsimp only
    rw [if_neg h1x, if_neg h2x, if_neg h3x]
    split_ifs <;> rfl
  refine ⟨key job h2 h3 h4, ?_, fun m t f c d hcap => composeSlackText_references m t f c d hcap⟩
  intro t1 t2 st body
  rw [key { job with type := t1 } h2 h3 h4 st body, key { job with type := t2 } h2 h3 h4 st body]
  rfl

/-- Witness for C9 amended at concrete inputs. -/
theorem C9_witness :
    (tasksNotificationsExec 1 "j1" (some sampleJob) (some "https://hooks.example")
        (.http 200 "ok") 77 (fun _ => "ts")).sentText
      = some (composeSlackText (executorMentions sampleJob) (executorChatTitle sampleJob)
          (executorFileName sampleJob) sampleJob.payload.caption "ts") ∧
    containsStr (composeSlackText "<@U1>" "Chat" "deck.pdf" "cap" "ts") "Chat" := by
  have h := C9_single_fixed_template 1 "j1" sampleJob "https://hooks.example" 77
    (fun _ => "ts") (by decide) rfl (by decide) rfl
  exact ⟨h.1 200 "ok", (h.2.2 "<@U1>" "Chat" "deck.pdf" "cap" "ts" (by decide)).2.1⟩
